import Mathlib

/-!
Verification development for the almdrlib OpenAPI v3 dynamic client builder
(`almdrlib/client.py`).  The Python source is shallowly embedded: Python
values are modelled by the inductive `Value`, Python dicts by ordered
association lists (insertion order preserved, keys unique in all modelled
states), and fallible code by `Except PyError`.  External collaborators
(the HTTP session, the jsonschema validator, the alsdkdefs constant
module) are modelled from the specification where noted.
-/

set_option autoImplicit false

namespace Almdrlib

/-- A Python runtime value, restricted to the shapes the client code
manipulates: strings, booleans, integers, `None`, `bytes`, lists and
(string-keyed) dicts. -/
inductive Value where
  | str (s : String)
  | bool (b : Bool)
  | int (n : Int)
  | pyNone
  | bytes (s : String)
  | list (xs : List Value)
  | dict (entries : List (String × Value))
deriving Repr

/-- Ordered association list modelling a Python dict with string keys. -/
abbrev AList (α : Type) := List (String × α)

/-- Python `d[k]` / `d.get(k)`: value of the first entry with key `k`. -/
def alookup {α : Type} : AList α → String → Option α
  | [], _ => Option.none
  | (k, v) :: rest, key => if k = key then some v else alookup rest key

/-- Python `k in d`. -/
def acontains {α : Type} (l : AList α) (k : String) : Bool :=
  (alookup l k).isSome

/-- Python `d[k] = v`: replace the value of an existing key in place,
otherwise append a new entry at the end (dict insertion order). -/
def aset {α : Type} : AList α → String → α → AList α
  | [], k, v => [(k, v)]
  | (k0, v0) :: rest, k, v =>
      if k0 = k then (k, v) :: rest else (k0, v0) :: aset rest k v

/-- Python `d.pop(k, ...)` / `del d[k]`: drop the entry with key `k`. -/
def aerase {α : Type} (l : AList α) (k : String) : AList α :=
  l.filter (fun e => e.1 ≠ k)

/-- Python `d.update(other)`: set every entry of `other` into `d`. -/
def aupdate {α : Type} (l : AList α) (other : AList α) : AList α :=
  other.foldl (fun acc e => aset acc e.1 e.2) l

/-- Python truthiness of a value. -/
def Value.truthy : Value → Bool
  | .str s => s ≠ ""
  | .bool b => b
  | .int n => n ≠ 0
  | .pyNone => false
  | .bytes s => s ≠ ""
  | .list xs => !xs.isEmpty
  | .dict es => !es.isEmpty

/-- Truthiness of an optional value (Python `None` is falsy). -/
def optTruthy : Option Value → Bool
  | Option.none => false
  | some v => v.truthy

mutual

/-- Python `repr(value)` (string escaping inside literals is not
reproduced; no modelled flow evaluates it on strings needing escapes). -/
def pyRepr : Value → String
  | .str s => "\x27" ++ s ++ "\x27"
  | .bool true => "True"
  | .bool false => "False"
  | .int n => toString n
  | .pyNone => "None"
  | .bytes s => "b\x27" ++ s ++ "\x27"
  | .list xs => "[" ++ pyReprList xs ++ "]"
  | .dict es => "\x7b" ++ pyReprEntries es ++ "\x7d"

/-- Comma-separated reprs of the elements of a list. -/
def pyReprList : List Value → String
  | [] => ""
  | [x] => pyRepr x
  | x :: y :: rest => pyRepr x ++ ", " ++ pyReprList (y :: rest)

/-- Comma-separated `key: value` reprs of the entries of a dict. -/
def pyReprEntries : List (String × Value) → String
  | [] => ""
  | [(k, v)] => "\x27" ++ k ++ "\x27: " ++ pyRepr v
  | (k, v) :: e :: rest =>
      "\x27" ++ k ++ "\x27: " ++ pyRepr v ++ ", " ++ pyReprEntries (e :: rest)

end

/-- Python `str(value)`: identity on strings, `repr` rendering otherwise
(matching CPython for the shapes used here). -/
def pyStr : Value → String
  | .str s => s
  | v => pyRepr v

mutual

/-- Python `json.dumps(value)` with the default separators.  `bytes` is
not JSON-serializable in Python; the clause is unreachable in the
modelled flows and renders as `null`. -/
def jsonDumps : Value → String
  | .str s => "\"" ++ s ++ "\""
  | .bool true => "true"
  | .bool false => "false"
  | .int n => toString n
  | .pyNone => "null"
  | .bytes _ => "null"
  | .list xs => "[" ++ jsonDumpsList xs ++ "]"
  | .dict es => "\x7b" ++ jsonDumpsEntries es ++ "\x7d"

/-- Comma-separated JSON renderings of list elements. -/
def jsonDumpsList : List Value → String
  | [] => ""
  | [x] => jsonDumps x
  | x :: y :: rest => jsonDumps x ++ ", " ++ jsonDumpsList (y :: rest)

/-- Comma-separated JSON renderings of dict entries. -/
def jsonDumpsEntries : List (String × Value) → String
  | [] => ""
  | [(k, v)] => "\"" ++ k ++ "\": " ++ jsonDumps v
  | (k, v) :: e :: rest =>
      "\"" ++ k ++ "\": " ++ jsonDumps v ++ ", " ++ jsonDumpsEntries (e :: rest)

end

/-- The exception kinds the client code can raise.
`almdrlibValueError` models `AlmdrlibValueError`; `valueError` the plain
builtin `ValueError`; `keyError` a raw dict lookup miss; `typeError` a
builtin `TypeError`. -/
inductive PyError where
  | almdrlibValueError (msg : String)
  | valueError (msg : String)
  | keyError (key : String)
  | typeError (msg : String)
deriving Repr, DecidableEq

/-- Extract the strings of a list of values; `Option.none` when some
element is not a string (where Python `str.join` raises `TypeError`). -/
def allStrings : List Value → Option (List String)
  | [] => some []
  | .str s :: rest => (allStrings rest).map (fun l => s :: l)
  | _ => Option.none

/-- Python `str.lower()` on one character (ASCII suffices for the
boolean literals this is applied to). -/
def pyLowerChar (c : Char) : Char :=
  if 65 ≤ c.toNat ∧ c.toNat ≤ 90 then Char.ofNat (c.toNat + 32) else c

/-- Python `str.lower()`. -/
def pyLower (s : String) : String := String.mk (s.data.map pyLowerChar)

/-- `serialize_value` (client.py): strings pass through, booleans become
the lower-case literals via Python truthiness (`value and "true" or
"false"`), everything else is stringified. -/
def serialize_value (datatype : String) (value : Value) : Value :=
  if datatype = "string" then value
  else if datatype = "boolean" then
    (if value.truthy then .str "true" else .str "false")
  else .str (pyStr value)

/-- `openapi_type_to_python_data_type` (client.py): `type_map.get`,
rendered as the Python type name (`None` for unknown types). -/
def openapi_type_to_python_data_type (data_type : String) : Option String :=
  if data_type = "string" then some "str"
  else if data_type = "boolean" then some "bool"
  else if data_type = "integer" then some "int"
  else if data_type = "object" then some "dict"
  else if data_type = "array" then some "list"
  else Option.none

/-- One declared path/query/header/cookie parameter, the state of a
`PathParameter` instance after construction.  `requiredFlag` is the raw
`_required` attribute (the declared flag); `default` is the value the
session collaborator returns from `get_default` (`Option.none` models
Python `None`, i.e. no session-supplied default). -/
structure PathParameter where
  location : String
  name : String
  schemaName : String
  requiredFlag : Bool
  datatype : String
  style : String
  explode : Bool
  default : Option Value
deriving Repr

/-- `PathParameter.default_style`: `form` for query/cookie, `simple`
otherwise. -/
def default_style (parameter_in : String) : String :=
  if parameter_in = "query" then "form"
  else if parameter_in = "path" then "simple"
  else if parameter_in = "header" then "simple"
  else if parameter_in = "cookie" then "form"
  else "simple"

/-- `PathParameter.default_explode`: `true` only for `form` style. -/
def default_explode (style : String) : Bool :=
  style = "form"

/-- The `required` property: the declared flag, or the parameter lives in
the path. -/
def PathParameter.required (p : PathParameter) : Bool :=
  p.requiredFlag || p.location = "path"

/-- `PathParameter.serialize_query_parameter`: style/explode dependent
encoding of one query parameter.  Unsupported styles are a fatal
`ValueError`; `deepObject` is intentionally unimplemented. -/
def serialize_query_parameter (style : String) (explode : Bool)
    (name : String) (datatype : String) (value : Value) :
    Except PyError (AList Value) :=
  if ¬(style = "form" ∨ style = "spaceDelimited" ∨ style = "pipeDelimited")
  then
    .error (.valueError
      (s!"{name} query parameter has invalid style: {style}"))
  else if datatype = "object" ∧ style = "form" then
    if explode then
      match value with
      | .dict entries => .ok entries
      | _ => .error (.typeError "query parameter value is not a mapping")
    else
      match value with
      | .dict entries =>
          .ok [(name, .str (String.intercalate ","
                 (entries.map (fun e => s!"{e.1},{pyStr e.2}"))))]
      | _ => .error (.typeError "query parameter value is not a mapping")
  else if datatype = "array" then
    if explode then
      .ok [(name, value)]
    else
      let delimiter :=
        if style = "spaceDelimited" then " "
        else if style = "pipeDelimited" then "|"
        else ","
      match value with
      | .list xs =>
          match allStrings xs with
          | some strs => .ok [(name, .str (String.intercalate delimiter strs))]
          | Option.none => .error (.typeError "sequence item: expected str")
      | _ => .error (.typeError "can only join an iterable of str")
  else if datatype = "boolean" then
    .ok [(name, .str (pyLower (pyStr value)))]
  else
    .ok [(name, value)]

/-- Mutable state threaded through `PathParameter.serialize`: the request
parts being assembled plus the remaining keyword arguments. -/
structure SerializeState where
  pathParams : AList Value
  queryParams : AList Value
  headers : AList Value
  cookies : AList Value
  kwargs : AList Value
deriving Repr

/-- `PathParameter.serialize`: consume the argument (or the session
default) into the request part matching the location.  The returned
`Bool` is `true` when the source returns `True` and `false` when it
takes the early `return` (the parameter is silently skipped).  Note the
missing-argument check consults the raw `_required` flag, not the
`required` property. -/
def PathParameter.serialize (p : PathParameter) (st : SerializeState) :
    Except PyError (SerializeState × Bool) :=
  if acontains st.kwargs p.name = false ∧ optTruthy p.default = false then
    if p.requiredFlag then
      .error (.valueError s!"\x27{p.name}\x27 is required")
    else
      .ok (st, false)
  else
    let rawValue := (alookup st.kwargs p.name).getD (p.default.getD .pyNone)
    let kwargs1 := aerase st.kwargs p.name
    let value := serialize_value p.datatype rawValue
    if p.location = "path" then
      .ok ({ st with pathParams := aset st.pathParams p.schemaName value,
                     kwargs := kwargs1 }, true)
    else if p.location = "query" then
      match serialize_query_parameter p.style p.explode p.name
              p.datatype rawValue with
      | .ok newQuery =>
          .ok ({ st with queryParams := aupdate st.queryParams newQuery,
                         kwargs := kwargs1 }, true)
      | .error e => .error e
    else if p.location = "header" then
      .ok ({ st with headers := aset st.headers p.schemaName value,
                     kwargs := kwargs1 }, true)
    else if p.location = "cookie" then
      .ok ({ st with cookies := aset st.cookies p.schemaName value,
                     kwargs := kwargs1 }, true)
    else
      .ok ({ st with kwargs := kwargs1 }, true)

/-- Python lexicographic `<` on strings as code-point lists. -/
def strLtAux : List Char → List Char → Bool
  | [], [] => false
  | [], _ :: _ => true
  | _ :: _, [] => false
  | a :: as, b :: bs =>
      if a.toNat < b.toNat then true
      else if b.toNat < a.toNat then false
      else strLtAux as bs

/-- Python `a < b` on strings. -/
def strLt (a b : String) : Bool := strLtAux a.data b.data

/-- Rank of a parameter location in the `location_ranks` dict of
`PathParameter.__lt__`; `Option.none` models a `dict.get` miss. -/
def locationRank (location : String) : Option Nat :=
  if location = "path" then some 0
  else if location = "query" then some 1
  else if location = "header" then some 2
  else if location = "cookie" then some 3
  else Option.none

/-- `PathParameter.__lt__`: four criteria checked in order, each
returning `True` as soon as the left argument strictly beats the right
one on that criterion (no tie check against the earlier criteria).
Comparing `dict.get` misses with `<` is a Python `TypeError`, modelled
as `Except.error`. -/
def PathParameter.lt (a b : PathParameter) : Except PyError Bool :=
  if a.required ∧ ¬b.required then .ok true
  else if a.default.isNone ∧ b.default.isSome then .ok true
  else
    match locationRank a.location, locationRank b.location with
    | some ra, some rb =>
        if ra < rb then .ok true
        else .ok (strLt a.name b.name)
    | _, _ => .error (.typeError "unsupported operand for NoneType")

/-- State of a `RequestBodySchemaParameter` after construction (non-JSON
or schema-opaque content). -/
structure RequestBodySchemaParameter where
  name : String
  contentType : String
deriving Repr

/-- State of a `RequestBodySimpleParameter` after construction (scalar
payload; `format` is `schema.get("format")`). -/
structure RequestBodySimpleParameter where
  name : String
  contentType : String
  format : Option String
deriving Repr

/-- State of a `RequestBodyObjectParameter` after construction:
`properties` and `requiredProperties` are the keys of `_properties` and
the `_required_properties` list read off the (normalized) schema;
`required` is the request body required flag passed down from
`RequestBody`. -/
structure RequestBodyObjectParameter where
  name : String
  contentType : String
  explode : Bool
  properties : List String
  requiredProperties : List String
  required : Bool
deriving Repr

/-- Message of the object-variant error raised when a required body
collects no property (the wording, including the missing `of`, follows
the source). -/
def atLeastOneMsg (properties : List String) : String :=
  "At least one the dict_keys(" ++
    pyRepr (.list (properties.map .str)) ++
    ") parameters must be specified."

/-- Message of the object-variant error raised when schema-required
properties are missing from the call arguments. -/
def missingRequiredMsg (requiredProperties : List String)
    (kwargs : AList Value) : String :=
  "\x27" ++ pyRepr (.list (requiredProperties.map .str)) ++
    "\x27 parameters are required. \x27" ++ pyRepr (.dict kwargs) ++
    "\x27 were provided."

/-- `RequestBodyObjectParameter.serialize`: check schema-required
properties are all supplied, collect only schema-declared properties out
of the arguments, reject a required-but-empty collection, validate, then
JSON-encode (the single named property in explode mode, the whole
collected object otherwise).  The external jsonschema validator (a
consumed collaborator) is modelled from the spec as the check that every
schema-required property is present in the validated object. -/
def RequestBodyObjectParameter.serialize (p : RequestBodyObjectParameter)
    (kwargs : AList Value) : Except PyError (AList Value) :=
  if ¬ p.requiredProperties.all (fun n => acontains kwargs n) then
    .error (.almdrlibValueError
      (missingRequiredMsg p.requiredProperties kwargs))
  else
    let result : AList Value :=
      p.properties.filterMap (fun k => (alookup kwargs k).map (fun v => (k, v)))
    let kwargs1 := kwargs.filter (fun e => ¬ p.properties.contains e.1)
    if p.required ∧ result.isEmpty then
      .error (.almdrlibValueError (atLeastOneMsg p.properties))
    else
      match p.requiredProperties.find? (fun n => ¬ acontains result n) with
      | some missing =>
          .error (.almdrlibValueError
            (s!"Validation Error: \x27{missing}\x27 is a required property"))
      | Option.none =>
          if p.explode then
            match alookup result p.name with
            | some v => .ok (aset kwargs1 "data" (.str (jsonDumps v)))
            | Option.none => .error (.keyError p.name)
          else
            .ok (aset kwargs1 "data" (.str (jsonDumps (.dict result))))

/-- `RequestBodySimpleParameter.serialize`: `binary` format encodes a
non-bytes value to bytes (a non-string has no `encode`), anything else
passes through untouched. -/
def RequestBodySimpleParameter.serialize (p : RequestBodySimpleParameter)
    (kwargs : AList Value) : Except PyError (AList Value) :=
  let data := (alookup kwargs p.name).getD (.str "")
  let kwargs1 := aerase kwargs p.name
  match data with
  | .bytes s => .ok (aset kwargs1 "data" (.bytes s))
  | _ =>
      if p.format = some "binary" then
        match data with
        | .str s => .ok (aset kwargs1 "data" (.bytes s))
        | _ => .error (.typeError "object has no attribute encode")
      else
        .ok (aset kwargs1 "data" data)

/-- `RequestBodySchemaParameter.serialize`: JSON-family content types are
validated and JSON-encoded, anything else passes the raw value through.
The jsonschema validation of the opaque schema is modelled as passing
(the schemas of the instances in this file impose no constraints). -/
def RequestBodySchemaParameter.serialize (p : RequestBodySchemaParameter)
    (kwargs : AList Value) : Except PyError (AList Value) :=
  let data := (alookup kwargs p.name).getD (.dict [])
  let kwargs1 := aerase kwargs p.name
  if p.contentType = "application/json" ∨ p.contentType = "alertlogic/json"
  then
    .ok (aset kwargs1 "data" (.str (jsonDumps data)))
  else
    .ok (aset kwargs1 "data" data)

/-- The three request-body strategy variants (one instance per declared
content type). -/
inductive RequestBodyParameter where
  | obj (p : RequestBodyObjectParameter)
  | simple (p : RequestBodySimpleParameter)
  | schemaParam (p : RequestBodySchemaParameter)
deriving Repr

/-- The `name` attribute shared by the variants. -/
def RequestBodyParameter.name : RequestBodyParameter → String
  | .obj p => p.name
  | .simple p => p.name
  | .schemaParam p => p.name

/-- Dispatch `serialize` to the variant implementation (the `headers`
argument of the Python methods is unused by all three variants and is
dropped here). -/
def RequestBodyParameter.serialize : RequestBodyParameter → AList Value →
    Except PyError (AList Value)
  | .obj p, kwargs => p.serialize kwargs
  | .simple p, kwargs => p.serialize kwargs
  | .schemaParam p, kwargs => p.serialize kwargs

/-- State of a `RequestBody` after the `add_content` calls: `content`
maps each declared content type to its variant instance, in insertion
order. -/
structure RequestBody where
  required : Bool
  content : AList RequestBodyParameter
deriving Repr

/-- The `default_content_type` property: defined (as the single key of
`_content`) only when exactly one content type is declared. -/
def RequestBody.default_content_type (b : RequestBody) : Option String :=
  if b.content.length = 1 then b.content.head?.map Prod.fst
  else Option.none

/-- Keys of the `_parameters` dict built by `add_content`: the body
parameter names in first-appearance order. -/
def RequestBody.parameterNames (b : RequestBody) : List String :=
  (b.content.map (fun c => c.2.name)).foldl
    (fun acc n => if acc.contains n then acc else acc ++ [n]) []

/-- The negotiation failure message (the source concatenates
`f"'content_type'"` directly with `"parameter is required."`, without a
space). -/
def ctRequiredMsg : String := "\x27content_type\x27parameter is required."

/-- `RequestBody.serialize`: three-tier content negotiation.  Tier 1: an
explicit `content_type` keyword argument (looked up in `_content` before
the header is written, so an undeclared value is a raw `KeyError`).
Tier 2: a `Content-Type` entry already in the headers.  Tier 3: the
derived default content type, used only when truthy (a non-empty
string).  Otherwise the negotiation error.  The selected variant then
serializes the remaining arguments. -/
def RequestBody.serialize (b : RequestBody) (headers kwargs : AList Value) :
    Except PyError (AList Value × AList Value) :=
  match alookup kwargs "content_type" with
  | some ctValue =>
      let kwargs1 := aerase kwargs "content_type"
      match ctValue with
      | .str ct =>
          (match alookup b.content ct with
           | some p =>
               (p.serialize kwargs1).map
                 (fun kw => (aset headers "Content-Type" (.str ct), kw))
           | Option.none => .error (.keyError ct))
      | v => .error (.keyError (pyStr v))
  | Option.none =>
      match alookup headers "Content-Type" with
      | some (.str ct) =>
          (match alookup b.content ct with
           | some p => (p.serialize kwargs).map (fun kw => (headers, kw))
           | Option.none => .error (.keyError ct))
      | some v => .error (.keyError (pyStr v))
      | Option.none =>
          match b.default_content_type with
          | some ct =>
              if ct = "" then .error (.almdrlibValueError ctRequiredMsg)
              else
                match alookup b.content ct with
                | some p =>
                    (p.serialize kwargs).map
                      (fun kw => (aset headers "Content-Type" (.str ct), kw))
                | Option.none => .error (.keyError ct)
          | Option.none => .error (.almdrlibValueError ctRequiredMsg)

/-- Insert `x` into an already-sorted list, directly before the first
element that `x` compares less than (so equal elements keep their
original relative order).  A comparison failure propagates. -/
def sortInsert (x : PathParameter) : List PathParameter →
    Except PyError (List PathParameter)
  | [] => .ok [x]
  | y :: ys => do
      if (← x.lt y) then
        .ok (x :: y :: ys)
      else
        .ok (y :: (← sortInsert x ys))

/-- Python `sorted` over `PathParameter.__lt__`: a stable sort, modelled
as insertion of each element in turn into the sorted prefix (identical
to CPython whenever the comparison is a consistent order). -/
def pySorted (params : List PathParameter) :
    Except PyError (List PathParameter) :=
  params.foldlM (fun acc p => sortInsert p acc) []

/-- An entry of the derived call signature (`inspect.Parameter`, always
keyword-only here): the name, the default (`Option.none` models
`inspect.Parameter.empty`) and the annotated Python type name. -/
structure SigParam where
  name : String
  default : Option Value
  annotation : Option String
deriving Repr

/-- `PathParameter.to_inspect_parameter`: keyword-only parameter whose
default is `self.default or empty` (a falsy session default becomes
empty) and whose annotation comes from the OpenAPI type map. -/
def PathParameter.toInspectParameter (p : PathParameter) : SigParam :=
  { name := p.name
    default :=
      match p.default with
      | some v => if v.truthy then some v else Option.none
      | Option.none => Option.none
    annotation := openapi_type_to_python_data_type p.datatype }

/-- One callable operation: the immutable state a constructed
`Operation` holds (the session collaborator and the lazily memoized
call closure are externals; the resolved server URL is `serverUrl`). -/
structure Operation where
  clientName : String
  operationId : String
  method : String
  path : String
  serverUrl : String
  params : List PathParameter
  body : Option RequestBody
deriving Repr

/-- Python `str.upper()` on one character (ASCII, which covers the HTTP
method names the client uses). -/
def pyUpperChar (c : Char) : Char :=
  if 97 ≤ c.toNat ∧ c.toNat ≤ 122 then Char.ofNat (c.toNat - 32) else c

/-- Python `str.upper()`. -/
def pyUpper (s : String) : String := String.mk (s.data.map pyUpperChar)

/-- `Operation.__repr__`: the operation identity used when re-raising
serialization errors. -/
def Operation.reprStr (op : Operation) : String :=
  s!"<{op.clientName}.{op.operationId}: {pyUpper op.method} {op.path}>"

/-- The body-derived block of `_make_signature`: when a request body
exists, a keyword-only `content_type : str` parameter is appended unless
a declared parameter already claims that name (its default is the
`default_content_type or empty` truthiness), followed by one bare
parameter per body parameter name. -/
def Operation.bodySigParams (op : Operation) : List SigParam :=
  match op.body with
  | Option.none => []
  | some b =>
      let ctPresent := (op.params.map (fun p => p.name)).contains "content_type"
      let ctParams : List SigParam :=
        if ctPresent then []
        else
          [{ name := "content_type"
             default :=
               match b.default_content_type with
               | some ct => if ct = "" then Option.none else some (.str ct)
               | Option.none => Option.none
             annotation := some "str" }]
      ctParams ++ b.parameterNames.map
        (fun n => { name := n, default := Option.none, annotation := Option.none })

/-- `Operation._make_signature`: sort the declared parameters, split them
into required and optional (by the `required` property), and place the
body-derived parameters between the two blocks. -/
def Operation.makeSignature (op : Operation) :
    Except PyError (List SigParam) := do
  let sorted ← pySorted op.params
  let requiredParams :=
    (sorted.filter (fun p => p.required)).map PathParameter.toInspectParameter
  let nonRequiredParams :=
    (sorted.filter (fun p => ¬ p.required)).map PathParameter.toInspectParameter
  pure (requiredParams ++ op.bodySigParams ++ nonRequiredParams)

/-- Characters used by the `str.format` model. -/
def lbrace : Char := Char.ofNat 123

/-- Closing brace character. -/
def rbrace : Char := Char.ofNat 125

/-- `str.format(**args)` on a URL path template, restricted to the plain
`\x7bname\x7d` placeholders OpenAPI paths use: a placeholder is replaced
by the stringified argument, a missing argument is a `KeyError`. -/
def formatChars (args : AList Value) :
    Nat → List Char → Except PyError (List Char)
  | _, [] => .ok []
  | 0, cs => .ok cs
  | fuel + 1, c :: rest =>
      if c = lbrace then
        let name := rest.takeWhile (fun d => d ≠ rbrace)
        let afterName := rest.dropWhile (fun d => d ≠ rbrace)
        match afterName with
        | [] => .error (.valueError "Single brace encountered in format string")
        | _ :: afterBrace => do
            match alookup args (String.mk name) with
            | some v =>
                .ok ((pyStr v).data ++ (← formatChars args fuel afterBrace))
            | Option.none => .error (.keyError (String.mk name))
      else do
        .ok (c :: (← formatChars args fuel rest))

/-- `template.format(**args)` for the URL path.  The fuel (one unit per
character of the template) bounds the recursion and is never exhausted,
since every step consumes at least one character. -/
def pyFormat (template : String) (args : AList Value) :
    Except PyError String :=
  (formatChars args template.data.length template.data).map String.mk

/-- Measure bounding the internal-parameter rewrite loop: every step
removes one leading underscore (or collapses a key), so the total key
length strictly decreases. -/
def sumKeyLens (kwargs : AList Value) : Nat :=
  (kwargs.map (fun e => e.1.length + 1)).sum

/-- One pass of the internal-parameter loop with explicit fuel: find the
first key carrying the reserved `_` prefix, strip the prefix and re-add
the entry under the stripped name (overwriting an unprefixed duplicate,
else appending, which the Python dict iteration then also visits).  The
fuel never runs out because `sumKeyLens` shrinks at every step. -/
def collectInternalGo : Nat → AList Value → AList Value
  | 0, kwargs => kwargs
  | fuel + 1, kwargs =>
      match kwargs.find? (fun e => e.1.startsWith "_") with
      | Option.none => kwargs
      | some (k, v) =>
          collectInternalGo fuel (aset (aerase kwargs k) (k.drop 1) v)

/-- The internal-parameter collection step of the generated call: keys
with the reserved `_` prefix are unprefixed and merged back into the
keyword arguments for the transport layer. -/
def collectInternalParams (kwargs : AList Value) : AList Value :=
  collectInternalGo (sumKeyLens kwargs) kwargs

/-- `kwargs.setdefault(key, \x7b\x7d).update(entries)`: merge a request
part into the transport keyword arguments (a caller-supplied non-dict
value under that key would fail in Python). -/
def mergeSubDict (kwargs : AList Value) (key : String)
    (entries : AList Value) : Except PyError (AList Value) :=
  match alookup kwargs key with
  | some (.dict existing) => .ok (aset kwargs key (.dict (aupdate existing entries)))
  | some _ => .error (.typeError "object has no attribute update")
  | Option.none => .ok (aset kwargs key (.dict entries))

/-- The final request handed to the external HTTP session collaborator
(`session.request(method, url, **kwargs)`). -/
structure Request where
  method : String
  url : String
  kwargs : AList Value
deriving Repr

/-- The closure produced by `Operation._gen_call`: serialize every
declared parameter in order, serialize the body, collect internal
parameters, merge the request parts and build the dispatch call.  The
per-account server URL re-resolution is a session (external) effect; the
resolved base URL is modelled by `op.serverUrl`. -/
def Operation.genCall (op : Operation) (kwargs : AList Value) :
    Except PyError Request := do
  let st0 : SerializeState := ⟨[], [], [], [], kwargs⟩
  let st ← op.params.foldlM
    (fun st p => do
      let (st1, _) ← p.serialize st
      pure st1) st0
  let (headers, kwargs1) ←
    match op.body with
    | some b => b.serialize st.headers st.kwargs
    | Option.none => pure (st.headers, st.kwargs)
  let kwargs2 := collectInternalParams kwargs1
  let kwargs3 ← mergeSubDict kwargs2 "params" st.queryParams
  let kwargs4 ← mergeSubDict kwargs3 "headers" headers
  let kwargs5 ← mergeSubDict kwargs4 "cookies" st.cookies
  let formattedPath ← pyFormat op.path st.pathParams
  pure ⟨op.method, op.serverUrl ++ formattedPath, kwargs5⟩

/-- `Operation.__call__`: run the (memoized) generated call and wrap an
escaping `AlmdrlibValueError` with the operation identity; every other
exception kind propagates unchanged. -/
def Operation.call (op : Operation) (kwargs : AList Value) :
    Except PyError Request :=
  match op.genCall kwargs with
  | .ok r => .ok r
  | .error (.almdrlibValueError msg) =>
      .error (.almdrlibValueError s!"{op.reprStr} failed {msg}")
  | .error e => .error e

/-- The slice of one operation sub-document that client loading
consults. -/
structure OpSpec where
  operationId : Option String
deriving Repr, DecidableEq

/-- The duplicate-identifier message (the source splits the f-string over
a backslash continuation, keeping the indentation inside the literal). -/
def dupMsg (operationId name : String) : String :=
  s!"Duplication {operationId} " ++
    "                                       " ++
    s!"specified for {name} API"

/-- Flatten the nested `paths` / methods loops of
`_initialize_operations` into the visited (path, method, spec) items. -/
def opsItems (paths : List (String × List (String × OpSpec))) :
    List (String × String × OpSpec) :=
  paths.flatMap (fun e => e.2.map (fun me => (e.1, me.1, me.2)))

/-- The declared operation identifiers of a spec, in visit order. -/
def declaredIds (paths : List (String × List (String × OpSpec))) :
    List String :=
  (opsItems paths).filterMap (fun it => it.2.2.operationId)

/-- The loop body of `_initialize_operations` over the flattened items:
an item with no `operationId` is logged and skipped, a duplicate
identifier is a fatal `AlmdrlibValueError`, otherwise the operation is
registered under its identifier (the registered value is the
(path, method) pair that identifies the built `Operation`). -/
def initOpsAux (name : String) :
    AList (String × String) → List (String × String × OpSpec) →
    Except PyError (AList (String × String))
  | ops, [] => .ok ops
  | ops, (path, method, spec) :: rest =>
      match spec.operationId with
      | Option.none => initOpsAux name ops rest
      | some oid =>
          if acontains ops oid then
            .error (.almdrlibValueError (dupMsg oid name))
          else
            initOpsAux name (aset ops oid (path, method)) rest

/-- `Client._initialize_operations`: build the operation map of a client
from its `paths` section; any raised error aborts client construction
(no partial client escapes). -/
def initOperations (name : String)
    (paths : List (String × List (String × OpSpec))) :
    Except PyError (AList (String × String)) :=
  initOpsAux name [] (opsItems paths)

/-- Truthiness of the memoized `default_content_type` property value
(`None` and the empty string are falsy). -/
def ctTruthy : Option String → Bool
  | some s => s ≠ ""
  | Option.none => false

/-- An empty serialization state (fresh call with no arguments). -/
def emptyState : SerializeState := ⟨[], [], [], [], []⟩

/-- Required path parameter named P (used by the ordering claims). -/
def paramP : PathParameter :=
  ⟨"path", "P", "P", true, "string", "simple", false, Option.none⟩

/-- Required header parameter named H. -/
def paramH : PathParameter :=
  ⟨"header", "H", "H", true, "string", "simple", false, Option.none⟩

/-- Optional query parameter named Q with a session default. -/
def paramQ : PathParameter :=
  ⟨"query", "Q", "Q", false, "string", "form", true, some (.str "dflt")⟩

/-- A path-located parameter whose declared `required` flag is false and
that has no session default. -/
def pathOptParam : PathParameter :=
  ⟨"path", "pid", "pid", false, "string", "simple", false, Option.none⟩

/-- A declared-required query parameter with no session default. -/
def qReqParam : PathParameter :=
  ⟨"query", "q", "q", true, "string", "form", true, Option.none⟩

/-- Claim C2: a declared required parameter that is absent from the
argument mapping and has no session-supplied default raises a
validation error whose message names the parameter. -/
theorem C2_required_missing (p : PathParameter) (st : SerializeState)
    (h1 : p.requiredFlag = true)
    (h2 : acontains st.kwargs p.name = false)
    (h3 : p.default = Option.none) :
    p.serialize st = .error (.valueError s!"\x27{p.name}\x27 is required") := by
  simp [PathParameter.serialize, h1, h2, h3, optTruthy]

/-- Witness for C2 at a concrete required query parameter and an empty
call. -/
theorem C2_required_missing_witness :
    qReqParam.requiredFlag = true ∧
    acontains emptyState.kwargs qReqParam.name = false ∧
    qReqParam.default = Option.none ∧
    qReqParam.serialize emptyState =
      .error (.valueError "\x27q\x27 is required") :=
  ⟨rfl, rfl, rfl, C2_required_missing qReqParam emptyState rfl rfl rfl⟩

/-- Claim C3, counterexample: a path-located parameter whose declared
flag is false is `required` by the property (used by signature
derivation and documentation), yet per-call serialization silently skips
it when the argument is missing and there is no default, instead of
failing. -/
theorem C3_path_skipped_counterexample :
    pathOptParam.location = "path" ∧
    pathOptParam.required = true ∧
    pathOptParam.serialize emptyState = .ok (emptyState, false) :=
  ⟨rfl, rfl, rfl⟩

/-- Claim C3 as amended: the `required` property (consulted by signature
derivation and documentation) treats every path-located parameter as
required, but per-call serialization consults only the declared flag, so
a path parameter with a false/absent flag that is missing from the call
and has no default is skipped without an error. -/
theorem C3_path_required_amended :
    (∀ p : PathParameter, p.location = "path" → p.required = true) ∧
    (∀ (p : PathParameter) (st : SerializeState), p.location = "path" →
       p.requiredFlag = false → acontains st.kwargs p.name = false →
       p.default = Option.none → p.serialize st = .ok (st, false)) := by
  constructor
  · intro p h
    simp [PathParameter.required, h]
  · intro p st hloc hflag hmiss hdef
    simp [PathParameter.serialize, hflag, hmiss, hdef, optTruthy]

/-- Witness for the amended C3 at the concrete optional path parameter. -/
theorem C3_path_required_amended_witness :
    pathOptParam.required = true ∧
    pathOptParam.serialize emptyState = .ok (emptyState, false) :=
  ⟨C3_path_required_amended.1 pathOptParam rfl,
   C3_path_required_amended.2 pathOptParam emptyState rfl rfl rfl rfl⟩

/-- Claim C4, counterexample: the comparison is not a total order — the
required path parameter P and the required header parameter H each
compare strictly less than the other, so the relation is not
antisymmetric and sorted output is not permutation-independent. -/
theorem C4_not_total_order_counterexample :
    paramP.lt paramH = .ok true ∧ paramH.lt paramP = .ok true :=
  ⟨rfl, rfl⟩

/-- Claim C4 as amended: the comparator returns less-than as soon as the
left parameter strictly beats the right on one of the four criteria
(required vs optional, absent default vs present, lower location rank,
smaller name), checked in that order but without tie guards on the
earlier criteria.  Required parameters do precede optional ones under a
single comparison, but the relation is not antisymmetric (P and H above
are each less than the other), hence not a total order, and sort results
can depend on the input permutation. -/
theorem C4_param_order_amended :
    (∀ a b : PathParameter, a.required = true → b.required = false →
       a.lt b = .ok true) ∧
    (paramP.lt paramH = .ok true ∧ paramH.lt paramP = .ok true) := by
  refine ⟨?_, rfl, rfl⟩
  intro a b h1 h2
  simp [PathParameter.lt, h1, h2]

/-- Witness for the amended C4: a required parameter compares less than
an optional one. -/
theorem C4_param_order_amended_witness :
    paramP.required = true ∧ paramQ.required = false ∧
    paramP.lt paramQ = .ok true :=
  ⟨rfl, rfl, C4_param_order_amended.1 paramP paramQ rfl rfl⟩

/-- Claim C5: query array serialization — explode passes the raw
sequence through under the parameter name; no-explode joins the (string)
elements with the style delimiter: comma for `form`, space for
`spaceDelimited`, pipe for `pipeDelimited`. -/
theorem C5_query_array_styles :
    (∀ (style name : String) (xs : List Value),
       style = "form" ∨ style = "spaceDelimited" ∨ style = "pipeDelimited" →
       serialize_query_parameter style true name "array" (.list xs) =
         .ok [(name, .list xs)]) ∧
    (∀ (name : String) (xs : List Value) (strs : List String),
       allStrings xs = some strs →
       serialize_query_parameter "form" false name "array" (.list xs) =
         .ok [(name, .str (String.intercalate "," strs))]) ∧
    (∀ (name : String) (xs : List Value) (strs : List String),
       allStrings xs = some strs →
       serialize_query_parameter "spaceDelimited" false name "array"
           (.list xs) =
         .ok [(name, .str (String.intercalate " " strs))]) ∧
    (∀ (name : String) (xs : List Value) (strs : List String),
       allStrings xs = some strs →
       serialize_query_parameter "pipeDelimited" false name "array"
           (.list xs) =
         .ok [(name, .str (String.intercalate "|" strs))]) := by
  refine ⟨?_, ?_, ?_, ?_⟩
  · rintro style name xs (rfl | rfl | rfl) <;>
      simp [serialize_query_parameter]
  · intro name xs strs h
    simp [serialize_query_parameter, h]
  · intro name xs strs h
    simp [serialize_query_parameter, h]
  · intro name xs strs h
    simp [serialize_query_parameter, h]

/-- The value `["a", "b", "c"]`. -/
def listABC : List Value := [.str "a", .str "b", .str "c"]

/-- Witness for C5 at the concrete value `["a","b","c"]`: form joins
with commas, pipeDelimited joins with pipes, explode passes the list
through. -/
theorem C5_query_array_styles_witness :
    serialize_query_parameter "form" false "name" "array" (.list listABC) =
      .ok [("name", .str "a,b,c")] ∧
    serialize_query_parameter "pipeDelimited" false "name" "array"
        (.list listABC) =
      .ok [("name", .str "a|b|c")] ∧
    serialize_query_parameter "form" true "name" "array" (.list listABC) =
      .ok [("name", .list listABC)] :=
  ⟨C5_query_array_styles.2.1 "name" listABC ["a", "b", "c"] rfl,
   C5_query_array_styles.2.2.2 "name" listABC ["a", "b", "c"] rfl,
   C5_query_array_styles.1 "form" "name" listABC (Or.inl rfl)⟩

/-- A schema-variant body parameter for the given content type. -/
def schemaParamFor (ct : String) : RequestBodyParameter :=
  .schemaParam ⟨"data", ct⟩

/-- A body declaring exactly one content type, the empty string. -/
def rbSingleEmptyCT : RequestBody :=
  { required := false, content := [("", schemaParamFor "")] }

/-- A body declaring the two JSON content types. -/
def rbTwoCT : RequestBody :=
  { required := false
    content := [("application/json", schemaParamFor "application/json"),
                ("alertlogic/json", schemaParamFor "alertlogic/json")] }

/-- Claim C1, counterexample: a body declaring exactly one content type
whose name is the empty string has a unique declared content type, yet
negotiation raises the content-type-required error instead of using that
unique default, because tier 3 tests the truthiness of the derived
default. -/
theorem C1_unique_default_counterexample :
    rbSingleEmptyCT.content.length = 1 ∧
    rbSingleEmptyCT.serialize [] [] =
      .error (.almdrlibValueError ctRequiredMsg) :=
  ⟨rfl, rfl⟩

/-- Claim C1 as amended: the governing content type is chosen by the
three-tier policy — (1) an explicit `content_type` argument, used and
written into the headers whenever it is declared; (2) a `Content-Type`
entry already present in the headers, used without rewriting them;
(3) the derived unique default, used and written into the headers only
when it is a truthy (non-empty) string — and otherwise the
content-type-required negotiation error is raised (in particular a body
whose single declared content type is the empty string raises it). -/
theorem C1_content_negotiation_amended :
    (∀ (b : RequestBody) (headers kwargs : AList Value)
       (ct : String) (p : RequestBodyParameter),
       alookup kwargs "content_type" = some (.str ct) →
       alookup b.content ct = some p →
       b.serialize headers kwargs =
         (p.serialize (aerase kwargs "content_type")).map
           (fun kw => (aset headers "Content-Type" (.str ct), kw))) ∧
    (∀ (b : RequestBody) (headers kwargs : AList Value)
       (ct : String) (p : RequestBodyParameter),
       alookup kwargs "content_type" = Option.none →
       alookup headers "Content-Type" = some (.str ct) →
       alookup b.content ct = some p →
       b.serialize headers kwargs =
         (p.serialize kwargs).map (fun kw => (headers, kw))) ∧
    (∀ (required : Bool) (headers kwargs : AList Value)
       (ct : String) (p : RequestBodyParameter),
       alookup kwargs "content_type" = Option.none →
       alookup headers "Content-Type" = Option.none →
       ct ≠ "" →
       RequestBody.serialize ⟨required, [(ct, p)]⟩ headers kwargs =
         (p.serialize kwargs).map
           (fun kw => (aset headers "Content-Type" (.str ct), kw))) ∧
    (∀ (b : RequestBody) (headers kwargs : AList Value),
       alookup kwargs "content_type" = Option.none →
       alookup headers "Content-Type" = Option.none →
       ctTruthy b.default_content_type = false →
       b.serialize headers kwargs =
         .error (.almdrlibValueError ctRequiredMsg)) := by
  refine ⟨?_, ?_, ?_, ?_⟩
  · intro b headers kwargs ct p h1 h2
    simp [RequestBody.serialize, h1, h2]
  · intro b headers kwargs ct p h1 h2 h3
    simp [RequestBody.serialize, h1, h2, h3]
  · intro required headers kwargs ct p h1 h2 h3
    simp [RequestBody.serialize, h1, h2, h3,
          RequestBody.default_content_type, alookup]
  · intro b headers kwargs h1 h2 h3
    match hdct : b.default_content_type with
    | Option.none => simp [RequestBody.serialize, h1, h2, hdct]
    | some ct =>
        rw [hdct] at h3
        have hct : ct = "" := by
          simpa [ctTruthy] using h3
        subst hct
        simp [RequestBody.serialize, h1, h2, hdct]

/-- Witness for the amended C1: an explicit `content_type` argument on a
two-content body selects the matching variant and sets the header. -/
theorem C1_content_negotiation_amended_witness :
    rbTwoCT.serialize [] [("content_type", .str "application/json")] =
      .ok ([("Content-Type", .str "application/json")],
           [("data", .str "\x7b\x7d")]) :=
  C1_content_negotiation_amended.1 rbTwoCT []
    [("content_type", .str "application/json")] "application/json"
    (schemaParamFor "application/json") rfl rfl

/-- A body declaring a single JSON content type. -/
def rbJson : RequestBody :=
  { required := false
    content := [("application/json", schemaParamFor "application/json")] }

/-- An operation with no declared parameters and a single-content-type
body. -/
def opSingleCT : Operation :=
  { clientName := "testsvc", operationId := "create_item", method := "post"
    path := "/items", serverUrl := "https://api.example.com"
    params := [], body := some rbJson }

/-- Claim C6, counterexample: the operation body declares exactly one
content type and no parameter is named `content_type`, yet the derived
call signature still receives an injected `content_type` parameter
(carrying the unique content type as its default) — the injection is not
limited to bodies with more than one content type. -/
theorem C6_signature_injection_counterexample :
    rbJson.content.length = 1 ∧
    opSingleCT.makeSignature =
      .ok [⟨"content_type", some (.str "application/json"), some "str"⟩,
           ⟨"data", Option.none, Option.none⟩] :=
  ⟨rfl, rfl⟩

/-- Claim C6 as amended: a `content_type` parameter is injected into the
derived call signature whenever the operation has a request body and no
declared parameter is already named `content_type` (regardless of how
many content types the body declares; with exactly one truthy content
type the injected parameter defaults to it); when a declared parameter
claims the name, or there is no body, nothing is injected. -/
theorem C6_signature_injection_amended :
    (∀ (op : Operation) (b : RequestBody) (sig : List SigParam),
       op.body = some b →
       ((op.params.map (fun p => p.name)).contains "content_type") = false →
       op.makeSignature = .ok sig →
       "content_type" ∈ sig.map (fun s => s.name)) ∧
    (∀ (op : Operation) (b : RequestBody),
       op.body = some b →
       ((op.params.map (fun p => p.name)).contains "content_type") = true →
       op.bodySigParams =
         b.parameterNames.map
           (fun n => ⟨n, Option.none, Option.none⟩)) ∧
    (∀ op : Operation, op.body = Option.none → op.bodySigParams = []) := by
  refine ⟨?_, ?_, ?_⟩
  · intro op b sig hb hct hsig
    match hsorted : pySorted op.params with
    | .error e => simp [Operation.makeSignature, hsorted] at hsig
    | .ok sorted =>
        simp only [Operation.makeSignature, hsorted, Except.bind, bind,
          pure, Except.pure, Except.ok.injEq] at hsig
        subst hsig
        have hforall : ∀ x ∈ op.params, x.name ≠ "content_type" := by
          simpa using hct
        simp only [Operation.bodySigParams, hb, List.map_append,
          List.mem_append, List.mem_map, List.mem_filter, List.mem_cons,
          List.mem_singleton, List.append_assoc]
        simp
        exact Or.inr (Or.inl ⟨_, ⟨hforall, rfl⟩, rfl⟩)
  · intro op b hb hct
    have hex : ∃ x ∈ op.params, x.name = "content_type" := by
      simpa using hct
    simp [Operation.bodySigParams, hb, hex]
  · intro op hb
    simp [Operation.bodySigParams, hb]

/-- Witness for the amended C6 at the single-content-type operation. -/
theorem C6_signature_injection_amended_witness :
    "content_type" ∈
      ([⟨"content_type", some (.str "application/json"), some "str"⟩,
        ⟨"data", Option.none, Option.none⟩] : List SigParam).map
        (fun s => s.name) :=
  C6_signature_injection_amended.1 opSingleCT rbJson
    [⟨"content_type", some (.str "application/json"), some "str"⟩,
     ⟨"data", Option.none, Option.none⟩] rfl rfl rfl

/-- An optional object-variant body parameter with one declared property
and no schema-required properties. -/
def objOptParam : RequestBodyObjectParameter :=
  { name := "data", contentType := "application/json", explode := false
    properties := ["a"], requiredProperties := [], required := false }

/-- A required object-variant body parameter with two declared
properties and no schema-required properties. -/
def objReqParam : RequestBodyObjectParameter :=
  { name := "data", contentType := "application/json", explode := false
    properties := ["a", "b"], requiredProperties := [], required := true }

/-- Claim C7, counterexample: an object-variant body whose declared body
object is optional and whose collected property set is empty does not
fail — serialization proceeds and produces the empty JSON object
payload.  The must-specify-at-least-one error is tied to a required
body, not an optional one. -/
theorem C7_optional_empty_counterexample :
    objOptParam.required = false ∧
    objOptParam.serialize [] = .ok [("data", .str "\x7b\x7d")] :=
  ⟨rfl, rfl⟩

/-- Claim C7 as amended: for an object-variant request body whose
declared body object is required, a call whose collected set of
schema-declared properties is empty fails with the fatal must-specify-
at-least-one error and no payload is produced; when the body object is
optional the empty collected set is serialized as the empty JSON
object. -/
theorem C7_empty_object_amended :
    (∀ (p : RequestBodyObjectParameter) (kwargs : AList Value),
       p.required = true → p.requiredProperties = [] →
       (∀ k ∈ p.properties, acontains kwargs k = false) →
       p.serialize kwargs =
         .error (.almdrlibValueError (atLeastOneMsg p.properties))) ∧
    (∀ (p : RequestBodyObjectParameter) (kwargs : AList Value),
       p.required = false → p.requiredProperties = [] →
       (∀ k ∈ p.properties, acontains kwargs k = false) →
       p.explode = false →
       p.serialize kwargs =
         .ok (aset (kwargs.filter (fun e => ¬ p.properties.contains e.1))
               "data" (.str "\x7b\x7d"))) := by
  have hcollect : ∀ (p : RequestBodyObjectParameter) (kwargs : AList Value),
      (∀ k ∈ p.properties, acontains kwargs k = false) →
      p.properties.filterMap
        (fun k => (alookup kwargs k).map (fun v => (k, v))) = [] := by
    intro p kwargs h
    rw [List.filterMap_eq_nil_iff]
    intro k hk
    have hc := h k hk
    rcases hlk : alookup kwargs k with _ | v
    · simp [hlk]
    · simp [acontains, hlk] at hc
  refine ⟨?_, ?_⟩
  · intro p kwargs hreq hrp hmiss
    simp [RequestBodyObjectParameter.serialize, hrp, hreq,
          hcollect p kwargs hmiss]
  · intro p kwargs hreq hrp hmiss hexp
    simp [RequestBodyObjectParameter.serialize, hrp, hreq, hexp,
          hcollect p kwargs hmiss, jsonDumps, jsonDumpsEntries]

/-- Witness for the amended C7: a required object body called with no
schema-declared property raises the must-specify-at-least-one error. -/
theorem C7_empty_object_amended_witness :
    objReqParam.serialize [("other", .int 1)] =
      .error (.almdrlibValueError (atLeastOneMsg ["a", "b"])) :=
  C7_empty_object_amended.1 objReqParam [("other", .int 1)] rfl rfl
    (by intro k hk; fin_cases hk <;> rfl)

/-- An operation with a single declared required query parameter and no
body. -/
def opMissingQ : Operation :=
  { clientName := "testsvc", operationId := "list_items", method := "get"
    path := "/items", serverUrl := "https://api.example.com"
    params := [qReqParam], body := Option.none }

/-- An operation with no declared parameters and a two-content-type
body. -/
def opNegotiate : Operation :=
  { clientName := "testsvc", operationId := "update_item", method := "put"
    path := "/items", serverUrl := "https://api.example.com"
    params := [], body := some rbTwoCT }

/-- Claim C8, counterexample: a validation error raised during parameter
serialization (missing required parameter) reaches the caller as a bare
`ValueError` whose message carries no operation identity — only
`AlmdrlibValueError` is caught and annotated by the call wrapper. -/
theorem C8_bare_error_counterexample :
    opMissingQ.call [] = .error (.valueError "\x27q\x27 is required") :=
  rfl

/-- Claim C8 as amended: errors of the `AlmdrlibValueError` kind raised
during an invocation (body validation, content negotiation) are
re-raised annotated with the failing operation identity (method, path,
operation id via its repr); plain `ValueError` (missing required
parameter, unsupported query style) and `KeyError` (undeclared content
type) propagate to the caller unchanged, without that identity. -/
theorem C8_error_annotation_amended :
    (∀ (op : Operation) (kwargs : AList Value) (msg : String),
       op.genCall kwargs = .error (.almdrlibValueError msg) →
       op.call kwargs =
         .error (.almdrlibValueError s!"{op.reprStr} failed {msg}")) ∧
    (∀ (op : Operation) (kwargs : AList Value) (msg : String),
       op.genCall kwargs = .error (.valueError msg) →
       op.call kwargs = .error (.valueError msg)) ∧
    (∀ (op : Operation) (kwargs : AList Value) (key : String),
       op.genCall kwargs = .error (.keyError key) →
       op.call kwargs = .error (.keyError key)) := by
  refine ⟨?_, ?_, ?_⟩ <;>
    (intro op kwargs m h; simp [Operation.call, h])

/-- Witness for the amended C8: the negotiation error of a two-content
body with no disambiguation is wrapped with the operation identity. -/
theorem C8_error_annotation_amended_witness :
    opNegotiate.genCall [] = .error (.almdrlibValueError ctRequiredMsg) ∧
    opNegotiate.reprStr = "<testsvc.update_item: PUT /items>" ∧
    opNegotiate.call [] =
      .error (.almdrlibValueError
        s!"{opNegotiate.reprStr} failed {ctRequiredMsg}") :=
  ⟨rfl, rfl, C8_error_annotation_amended.1 opNegotiate [] ctRequiredMsg rfl⟩

/-- Lookup behaviour of the dict-set model. -/
theorem alookup_aset {α : Type} (l : AList α) (k : String) (v : α)
    (k' : String) :
    alookup (aset l k v) k' = if k = k' then some v else alookup l k' := by
  induction l with
  | nil => simp [aset, alookup]
  | cons e rest ih =>
      rcases e with ⟨k0, v0⟩
      by_cases h1 : k0 = k
      · subst h1
        by_cases h2 : k0 = k' <;> simp [aset, alookup, h2]
      · by_cases h2 : k0 = k'
        · subst h2
          have h1' : ¬ k = k0 := fun h => h1 h.symm
          simp [aset, alookup, h1, h1']
        · simp [aset, alookup, h1, h2, ih]

/-- Key-membership behaviour of the dict-set model. -/
theorem acontains_aset {α : Type} (l : AList α) (k : String) (v : α)
    (k' : String) :
    acontains (aset l k v) k' = (decide (k = k') || acontains l k') := by
  by_cases h : k = k' <;> simp [acontains, alookup_aset, h]

/-- The identifiers declared by a flattened item list, in visit order. -/
def itemIds (items : List (String × String × OpSpec)) : List String :=
  items.filterMap (fun it => it.2.2.operationId)

/-- Step equation of the build loop for an id-less item. -/
theorem initOpsAux_cons_none (name : String) (ops : AList (String × String))
    (path method : String) (rest : List (String × String × OpSpec)) :
    initOpsAux name ops ((path, method, ⟨Option.none⟩) :: rest) =
      initOpsAux name ops rest := rfl

/-- Step equation of the build loop for an identified item. -/
theorem initOpsAux_cons_some (name : String) (ops : AList (String × String))
    (path method oid : String) (rest : List (String × String × OpSpec)) :
    initOpsAux name ops ((path, method, ⟨some oid⟩) :: rest) =
      if acontains ops oid then
        .error (.almdrlibValueError (dupMsg oid name))
      else initOpsAux name (aset ops oid (path, method)) rest := rfl

/-- A successful operation-map build implies the declared identifiers
were pairwise distinct and none was registered beforehand. -/
theorem initOpsAux_ok_nodup (items : List (String × String × OpSpec)) :
    ∀ (name : String) (ops m : AList (String × String)),
    initOpsAux name ops items = .ok m →
    (itemIds items).Nodup ∧
      ∀ i ∈ itemIds items, acontains ops i = false := by
  induction items with
  | nil => intro name ops m _; simp [itemIds]
  | cons item rest ih =>
      intro name ops m h
      rcases item with ⟨p, mth, spec⟩
      rcases spec with ⟨_ | oid⟩
      · rw [initOpsAux_cons_none] at h
        have := ih name ops m h
        simpa [itemIds, List.filterMap_cons] using this
      · rw [initOpsAux_cons_some] at h
        by_cases hc : acontains ops oid
        · simp [hc] at h
        · rw [if_neg (by simp [hc])] at h
          have hrec := ih name (aset ops oid (p, mth)) m h
          have hoidmem : ∀ i ∈ itemIds rest,
              acontains (aset ops oid (p, mth)) i = false := hrec.2
          constructor
          · simp only [itemIds, List.filterMap_cons, List.Nodup]
            refine List.Pairwise.cons (fun i hi heq => ?_) hrec.1
            subst heq
            have := hoidmem _ hi
            rw [acontains_aset] at this
            simp at this
          · intro i hi
            simp only [itemIds, List.filterMap_cons,
              List.mem_cons] at hi
            rcases hi with rfl | hi
            · simpa using hc
            · have := hoidmem i hi
              rw [acontains_aset] at this
              rcases Bool.or_eq_false_iff.mp this with ⟨_, h2⟩
              exact h2

/-- The build either succeeds or fails with a duplicate-identifier
error. -/
theorem initOpsAux_ok_or_dup (items : List (String × String × OpSpec)) :
    ∀ (name : String) (ops : AList (String × String)),
    (∃ m, initOpsAux name ops items = .ok m) ∨
      (∃ oid, initOpsAux name ops items =
        .error (.almdrlibValueError (dupMsg oid name))) := by
  induction items with
  | nil => intro name ops; exact Or.inl ⟨ops, rfl⟩
  | cons item rest ih =>
      intro name ops
      rcases item with ⟨p, mth, spec⟩
      rcases spec with ⟨_ | oid⟩
      · rcases ih name ops with ⟨m, hm⟩ | ⟨oid, hoid⟩
        · exact Or.inl ⟨m, by rw [initOpsAux_cons_none]; exact hm⟩
        · exact Or.inr ⟨oid, by rw [initOpsAux_cons_none]; exact hoid⟩
      · by_cases hc : acontains ops oid
        · exact Or.inr ⟨oid, by rw [initOpsAux_cons_some, if_pos hc]⟩
        · rcases ih name (aset ops oid (p, mth)) with ⟨m, hm⟩ | ⟨o, ho⟩
          · exact Or.inl ⟨m, by
              rw [initOpsAux_cons_some, if_neg (by simp [hc])]; exact hm⟩
          · exact Or.inr ⟨o, by
              rw [initOpsAux_cons_some, if_neg (by simp [hc])]; exact ho⟩

/-- Claim C9: at load time an operation sub-document without an
`operationId` is skipped without affecting the rest of the load, a
successful load implies all declared identifiers are distinct, and a
spec with a duplicated identifier makes the whole load fail with the
fatal duplicate error (so no operation of such a spec is ever reachable
through a constructed client). -/
theorem C9_load_operations :
    (∀ (name : String) (ops : AList (String × String))
       (pre post : List (String × String × OpSpec))
       (path method : String) (spec : OpSpec),
       spec.operationId = Option.none →
       initOpsAux name ops (pre ++ (path, method, spec) :: post) =
         initOpsAux name ops (pre ++ post)) ∧
    (∀ (name : String) (paths : List (String × List (String × OpSpec)))
       (m : AList (String × String)),
       initOperations name paths = .ok m → (declaredIds paths).Nodup) ∧
    (∀ (name : String) (paths : List (String × List (String × OpSpec))),
       ¬ (declaredIds paths).Nodup →
       ∃ oid, initOperations name paths =
         .error (.almdrlibValueError (dupMsg oid name))) := by
  refine ⟨?_, ?_, ?_⟩
  · intro name ops pre post path method spec hid
    rcases spec with ⟨oidOpt⟩
    simp only at hid
    subst hid
    induction pre generalizing ops with
    | nil =>
        rw [List.nil_append, List.nil_append, initOpsAux_cons_none]
    | cons q pre' ih =>
        rcases q with ⟨qp, qm, qs⟩
        rcases qs with ⟨_ | oid⟩
        · rw [List.cons_append, List.cons_append, initOpsAux_cons_none,
            initOpsAux_cons_none]
          exact ih ops
        · rw [List.cons_append, List.cons_append, initOpsAux_cons_some,
            initOpsAux_cons_some]
          by_cases hc : acontains ops oid
          · rw [if_pos hc, if_pos hc]
          · rw [if_neg (by simp [hc]), if_neg (by simp [hc])]
            exact ih (aset ops oid (qp, qm))
  · intro name paths m h
    exact (initOpsAux_ok_nodup (opsItems paths) name [] m h).1
  · intro name paths hdup
    rcases initOpsAux_ok_or_dup (opsItems paths) name [] with ⟨m, hm⟩ | hdup2
    · exact absurd (initOpsAux_ok_nodup (opsItems paths) name [] m hm).1 hdup
    · exact hdup2

/-- A spec with one id-less operation and two further operations. -/
def pathsSkip : List (String × List (String × OpSpec)) :=
  [("/items", [("get", ⟨some "list_items"⟩), ("post", ⟨Option.none⟩)]),
   ("/items/\x7bid\x7d", [("get", ⟨some "get_item"⟩)])]

/-- A spec declaring the same operation id twice. -/
def pathsDup : List (String × List (String × OpSpec)) :=
  [("/items", [("get", ⟨some "get_item"⟩)]),
   ("/items/\x7bid\x7d", [("get", ⟨some "get_item"⟩)])]

/-- Witness for C9: skipping a concrete id-less item, a concrete
successful distinct-id load, and a concrete duplicated spec failing. -/
theorem C9_load_operations_witness :
    (initOpsAux "svc" [] (opsItems pathsSkip) =
       initOpsAux "svc" []
         [("/items", "get", ⟨some "list_items"⟩),
          ("/items/\x7bid\x7d", "get", ⟨some "get_item"⟩)]) ∧
    (declaredIds pathsSkip).Nodup ∧
    (∃ oid, initOperations "svc" pathsDup =
       .error (.almdrlibValueError (dupMsg oid "svc"))) :=
  ⟨C9_load_operations.1 "svc" []
     [("/items", "get", ⟨some "list_items"⟩)]
     [("/items/\x7bid\x7d", "get", ⟨some "get_item"⟩)]
     "/items" "post" ⟨Option.none⟩ rfl,
   C9_load_operations.2.1 "svc" pathsSkip
     [("list_items", ("/items", "get")),
      ("get_item", ("/items/\x7bid\x7d", "get"))] rfl,
   C9_load_operations.2.2 "svc" pathsDup (by decide)⟩

/-- Claim C10: a `content_type` argument (or a pre-set `Content-Type`
header) naming an undeclared content type makes body serialization fail
with the raw mapping-lookup `KeyError` on the content map, not with the
recoverable content-type-required negotiation error. -/
theorem C10_undeclared_content_type :
    (∀ (b : RequestBody) (headers kwargs : AList Value) (ct : String),
       alookup kwargs "content_type" = some (.str ct) →
       alookup b.content ct = Option.none →
       b.serialize headers kwargs = .error (.keyError ct)) ∧
    (∀ (b : RequestBody) (headers kwargs : AList Value) (ct : String),
       alookup kwargs "content_type" = Option.none →
       alookup headers "Content-Type" = some (.str ct) →
       alookup b.content ct = Option.none →
       b.serialize headers kwargs = .error (.keyError ct)) := by
  constructor
  · intro b headers kwargs ct h1 h2
    simp [RequestBody.serialize, h1, h2]
  · intro b headers kwargs ct h1 h2 h3
    simp [RequestBody.serialize, h1, h2, h3]

/-- Witness for C10: `text/plain` is not declared by the two-content
body, via the argument tier and via the header tier. -/
theorem C10_undeclared_content_type_witness :
    rbTwoCT.serialize [] [("content_type", .str "text/plain")] =
      .error (.keyError "text/plain") ∧
    rbTwoCT.serialize [("Content-Type", .str "text/plain")] [] =
      .error (.keyError "text/plain") :=
  ⟨C10_undeclared_content_type.1 rbTwoCT []
     [("content_type", .str "text/plain")] "text/plain" rfl rfl,
   C10_undeclared_content_type.2 rbTwoCT
     [("Content-Type", .str "text/plain")] [] "text/plain" rfl rfl rfl⟩

end Almdrlib
